import Mathlib

/-!
Verification of the resume-processing pipeline of the Jobs_Board repository.

The development shallowly embeds the three Python modules that the checked
properties are about:

* `jobs_platform/resume_processor/pdf_extractor.py` (`PDFExtractor`),
* `SonaJobs/resume_processor/ai_processor.py` (`AIProcessor`),
* `SonaJobs/resume_processor/matcher.py` (`ResumeMatcher`).

Python strings are modelled as `String`/`List Char`, Python floats as `ℚ`
(every float literal appearing in these modules — 0.1 … 0.9, 0.5, 100.0 —
and every arithmetic expression they enter is exactly representable, and all
comparisons the code performs are decided identically over `ℚ` and over
IEEE doubles for the magnitudes involved), Python dicts with a fixed key set
as structures with `Option` fields, and raised exceptions as `Except`.
-/

namespace PyStr

/-- Python `str.strip()` on a character list (both-ends whitespace strip). -/
def stripL (l : List Char) : List Char :=
  ((l.dropWhile Char.isWhitespace).reverse.dropWhile Char.isWhitespace).reverse

/-- Python `str.split()` with no argument: split on whitespace runs,
discarding empty pieces. -/
def pySplit (l : List Char) : List (List Char) :=
  (l.splitOnP Char.isWhitespace).filter (fun w => ¬ w.isEmpty)

/-- Python `str.lower()` on a character list (ASCII case folding suffices for
the vocabularies involved). -/
def lowerL (l : List Char) : List Char := l.map Char.toLower

/-- Case-insensitive prefix test (used for `re.IGNORECASE` literal matching). -/
def ciPrefixOf : List Char → List Char → Bool
  | [], _ => true
  | _ :: _, [] => false
  | a :: as, b :: bs => (a.toLower == b.toLower) && ciPrefixOf as bs

/-- Exact prefix test. -/
def exPrefixOf : List Char → List Char → Bool
  | [], _ => true
  | _ :: _, [] => false
  | a :: as, b :: bs => (a == b) && exPrefixOf as bs

/-- Python's `pat in s` substring test. -/
def isSubstr (pat l : List Char) : Bool :=
  (List.range (l.length + 1)).any (fun i => exPrefixOf pat (l.drop i))

/-- Python regex `\w` on the ASCII texts involved. -/
def isWordChar (c : Char) : Bool := c.isAlphanum || c == '_'

/-- Whether the character at position `p` is a word character
(out-of-range positions count as non-word). -/
def wordAt (l : List Char) (p : Nat) : Bool :=
  match l[p]? with
  | some c => isWordChar c
  | none => false

/-- Python regex `\b` at position `p`: word-ness changes between `p-1` and `p`. -/
def boundaryAt (l : List Char) (p : Nat) : Bool :=
  match p with
  | 0 => wordAt l 0
  | q + 1 => wordAt l q != wordAt l (q + 1)

/-- Matching of a pattern `\b(?:a₁|a₂|…)\b` of literal alternatives at
position `p` under `re.IGNORECASE`: the first alternative (in pattern order)
that matches with both boundaries, returning the match length. -/
def tryAltsAt (alts : List (List Char)) (l : List Char) (p : Nat) : Option Nat :=
  alts.findSome? (fun a =>
    if ciPrefixOf a (l.drop p) && boundaryAt l p && boundaryAt l (p + a.length)
    then some a.length else none)

/-- `re.finditer` for such a pattern: leftmost, non-overlapping matches,
returned as (start, length) pairs. -/
def finditerAux (alts : List (List Char)) (l : List Char) :
    Nat → Nat → List (Nat × Nat)
  | 0, _ => []
  | fuel + 1, p =>
    if l.length < p then []
    else
      match tryAltsAt alts l p with
      | some n => (p, n) :: finditerAux alts l fuel (p + n)
      | none => finditerAux alts l fuel (p + 1)

def finditer (alts : List (List Char)) (l : List Char) : List (Nat × Nat) :=
  finditerAux alts l (l.length + 1) 0

/-- `re.search` for such a pattern: whether it matches anywhere. -/
def searchAlts (alts : List (List Char)) (l : List Char) : Bool :=
  (List.range (l.length + 1)).any (fun p => (tryAltsAt alts l p).isSome)

/-- `re.search` returning the leftmost match as a (start, length) pair. -/
def searchFirstMatch (alts : List (List Char)) (l : List Char) :
    Option (Nat × Nat) :=
  (List.range (l.length + 1)).findSome? (fun p =>
    (tryAltsAt alts l p).map (fun n => (p, n)))

/-- `int()` of a digit run. -/
def natOfDigits (ds : List Char) : Nat :=
  ds.foldl (fun n c => n * 10 + (c.toNat - 48)) 0

/-- If `pat` is a case-insensitive prefix of `l`, the remainder after it. -/
def ciDrop (pat l : List Char) : Option (List Char) :=
  if ciPrefixOf pat l then some (l.drop pat.length) else none

end PyStr

/-! ## `difflib.SequenceMatcher` (isjunk=None, short strings, so no autojunk)

`ResumeMatcher` compares skills with `SequenceMatcher(None, a, b).ratio()`
(here `ratioQ`, over `ℚ`): `2·M/T` where `T = len(a)+len(b)` and `M` is the total size of the
matching blocks: recursively, the longest matching block (maximal length,
ties broken by the earliest start in `a`, then in `b`) splits the problem
into the parts before and after it. -/

namespace DifflibModel

open PyStr

/-- Length of the longest common prefix. -/
def cpl : List Char → List Char → Nat
  | a :: as, b :: bs => if a = b then cpl as bs + 1 else 0
  | _, _ => 0

/-- One candidate step of `find_longest_match`: a strictly longer common
block at `(i, j)` replaces the best found so far, so that (scanning pairs in
lexicographic order) the maximal block earliest in `a`, then in `b`, wins. -/
def lmStep (a b : List Char) (best : Nat × Nat × Nat) (ij : Nat × Nat) :
    Nat × Nat × Nat :=
  if cpl (a.drop ij.1) (b.drop ij.2) > best.2.2
  then (ij.1, ij.2, cpl (a.drop ij.1) (b.drop ij.2)) else best

/-- All start pairs `(i, j)` with `i ≤ n`, `j ≤ m`, in lexicographic order. -/
def pairsUpTo (n m : Nat) : List (Nat × Nat) :=
  ((List.range (n + 1)).map (fun i =>
    (List.range (m + 1)).map (fun j => (i, j)))).flatten

/-- `find_longest_match` over the whole strings: `(i, j, k)` with maximal
`k`, earliest `i`, then earliest `j`. -/
def lmBest (a b : List Char) : Nat × Nat × Nat :=
  (pairsUpTo a.length b.length).foldl (lmStep a b) (0, 0, 0)

/-- Total size of all matching blocks (fuelled recursion; the fuel
`len a + len b` always suffices since every recursive call strictly shrinks
the combined length). -/
def matchSum : Nat → List Char → List Char → Nat
  | 0, _, _ => 0
  | fuel + 1, a, b =>
    let t := lmBest a b
    if t.2.2 = 0 then 0
    else
      t.2.2 + matchSum fuel (a.take t.1) (b.take t.2.1)
        + matchSum fuel (a.drop (t.1 + t.2.2)) (b.drop (t.2.1 + t.2.2))

/-- `SequenceMatcher(None, a, b).ratio()`. -/
def ratioQ (a b : List Char) : ℚ :=
  if a.length + b.length = 0 then 1
  else 2 * (matchSum (a.length + b.length) a b : ℚ) / (a.length + b.length)

def ratioQS (a b : String) : ℚ := ratioQ a.toList b.toList

/-- The comparison `SequenceMatcher(None, a, b).ratio() > 0.8` performed by
`ResumeMatcher._calculate_skills_match`, decided exactly over the integers:
for `T = len a + len b > 0` the ratio is `2·M/T`, and `2·M/T > 4/5` iff
`10·M > 4·T`; for `T = 0` the ratio is `1 > 0.8`.  The equivalence with the
rational comparison is `ratioExceeds_iff`. -/
def ratioExceeds (a b : List Char) : Bool :=
  let T := a.length + b.length
  let M := matchSum T a b
  if T = 0 then true else decide (10 * M > 4 * T)

end DifflibModel

/-! ## `SonaJobs/resume_processor/matcher.py` — `ResumeMatcher`

`resume_data` is the extracted-resume dictionary: the matcher reads
`skills` (list of dicts with a `name`), `experience` (list of dicts; the
score uses only `duration`, the text comparison also `position`, `company`,
`description`), `education` (list of dicts with `degree`, `institution`,
`field_of_study`) and optionally `raw_text`.  `job_requirements` carries
`title`, `description`, `requirements` and `skills_required` (modelled as
plain strings; the code also accepts `{name: …}` dicts and reads the
name). -/

namespace ResumeMatcher

open PyStr DifflibModel

structure RSkill where
  name : String

structure RExperience where
  position : String
  company : String
  duration : String
  description : String

structure REducation where
  degree : String
  institution : String
  field_of_study : String

structure ResumeData where
  raw_text : Option String
  skills : List RSkill
  experience : List RExperience
  education : List REducation

structure JobRequirements where
  title : String
  description : String
  requirements : String
  skills_required : List String

/-- `job_requirements.get('description','') + ' ' + job_requirements.get('requirements','')`. -/
def combinedText (job : JobRequirements) : String :=
  job.description ++ " " ++ job.requirements

/-- The five skill regex alternations of `_extract_skills_from_requirements`
(literal alternatives of `\b(?:…)\b` patterns, matched with `re.IGNORECASE`). -/
def matcherSkillPatterns : List (List String) :=
  [["Python", "Java", "JavaScript", "C++", "C#", "PHP", "Ruby", "Go", "Rust",
    "Swift", "Kotlin", "Scala"],
   ["HTML", "CSS", "SQL", "NoSQL", "MongoDB", "PostgreSQL", "MySQL", "Redis",
    "Elasticsearch"],
   ["React", "Angular", "Vue", "Node.js", "Django", "Flask", "Spring",
    "Laravel", "Express"],
   ["AWS", "Azure", "GCP", "Docker", "Kubernetes", "Jenkins", "Git", "GitHub",
    "GitLab"],
   ["Machine Learning", "AI", "Data Science", "Analytics", "Statistics", "R",
    "TensorFlow", "PyTorch"]]

/-- `_extract_skills_from_requirements`: lowercased `skills_required`
entries, then every pattern match over description+requirements, lowercased,
appended if not already present. -/
def extractSkillsFromRequirements (job : JobRequirements) : List String :=
  let base := job.skills_required.map (fun s => String.mk (lowerL s.toList))
  let t := (combinedText job).toList
  matcherSkillPatterns.foldl (fun skills pat =>
    (finditer (pat.map String.toList) t).foldl (fun skills pr =>
      let s := String.mk (lowerL ((t.drop pr.1).take pr.2))
      if s ∈ skills then skills else skills ++ [s]) skills) base

/-- The regex `(\d+)\s*(?:years?|yrs?)\s+of\s+experience` (IGNORECASE)
matched at position `p`: the digit run, `\s*`, one of the unit alternatives
(in backtracking order), `\s+`, `of`, `\s+`, `experience`. -/
def yearsOfExpAt (l : List Char) (p : Nat) : Option Nat :=
  let tail := l.drop p
  let ds := tail.takeWhile Char.isDigit
  if ds.isEmpty then none
  else
    let r1 := (tail.drop ds.length).dropWhile Char.isWhitespace
    ["years".toList, "year".toList, "yrs".toList, "yr".toList].findSome?
      (fun u =>
        match ciDrop u r1 with
        | some r2 =>
          if (r2.takeWhile Char.isWhitespace).isEmpty then none
          else
            match ciDrop "of".toList (r2.dropWhile Char.isWhitespace) with
            | some r4 =>
              if (r4.takeWhile Char.isWhitespace).isEmpty then none
              else if ciPrefixOf "experience".toList
                  (r4.dropWhile Char.isWhitespace) then
                some (natOfDigits ds)
              else none
            | none => none
        | none => none)

/-- `re.search` of the years pattern: leftmost match. -/
def searchYearsOfExp (l : List Char) : Option Nat :=
  (List.range (l.length + 1)).findSome? (fun p => yearsOfExpAt l p)

/-- The four level keyword patterns of `_extract_experience_requirements`,
in dict insertion order (the first level whose pattern matches wins). -/
def levelPatterns : List (String × List String) :=
  [("entry", ["entry", "junior", "beginner", "graduate", "fresh"]),
   ("mid", ["mid", "intermediate", "experienced"]),
   ("senior", ["senior", "lead", "principal", "staff"]),
   ("executive", ["executive", "director", "manager", "head"])]

def searchLevel (l : List Char) : Option String :=
  levelPatterns.findSome? (fun pr =>
    if searchAlts (pr.2.map String.toList) l then some pr.1 else none)

/-- The mined experience-requirements dict: key `years` present iff the
years regex matched, key `level` present iff a level pattern matched. -/
structure ExperienceReq where
  years : Option Nat
  level : Option String

/-- Python truthiness of the mined dict: `if required_experience:`. -/
def ExperienceReq.isEmptyDict (r : ExperienceReq) : Bool :=
  r.years.isNone && r.level.isNone

def extractExperienceRequirements (job : JobRequirements) : ExperienceReq :=
  let t := (combinedText job).toList
  { years := searchYearsOfExp t, level := searchLevel t }

/-- The three degree alternations of `_extract_education_requirements`, in
dict insertion order, with the optional-dot abbreviations expanded in the
regex backtracking order (`b\.?a\.?` tries `b.a.`, `b.a`, `ba.`, `ba`). -/
def degreePatterns : List (String × List String) :=
  [("bachelor",
    ["bachelor", "bachelor" ++ String.singleton (Char.ofNat 39) ++ "s",
     "b.a.", "b.a", "ba.", "ba", "b.s.", "b.s", "bs.", "bs"]),
   ("master",
    ["master", "master" ++ String.singleton (Char.ofNat 39) ++ "s",
     "m.a.", "m.a", "ma.", "ma", "m.s.", "m.s", "ms.", "ms", "mba"]),
   ("phd", ["ph.d.", "ph.d", "phd.", "phd", "doctorate", "doctoral"])]

def searchDegree (l : List Char) : Option String :=
  degreePatterns.findSome? (fun pr =>
    if searchAlts (pr.2.map String.toList) l then some pr.1 else none)

/-- The single field alternation; the matched text, lowercased, is stored. -/
def fieldAlts : List String :=
  ["Computer Science", "Engineering", "Business", "Marketing", "Finance",
   "Economics"]

def searchField (l : List Char) : Option String :=
  (searchFirstMatch (fieldAlts.map String.toList) l).map
    (fun pr => String.mk (lowerL ((l.drop pr.1).take pr.2)))

/-- The mined education-requirements dict. -/
structure EducationReq where
  degree : Option String
  field : Option String

def EducationReq.isEmptyDict (r : EducationReq) : Bool :=
  r.degree.isNone && r.field.isNone

def extractEducationRequirements (job : JobRequirements) : EducationReq :=
  let t := (combinedText job).toList
  { degree := searchDegree t, field := searchField t }

/-- `_calculate_skills_match`, after the required-skill extraction: the
resume skill names are lowercased; with no required skills the score is the
0.5 default; otherwise it is the fraction of required skills for which some
resume skill is more than 80% similar. -/
def calculateSkillsMatch (resume : ResumeData) (requiredSkills : List String) : ℚ :=
  let resumeSkills := resume.skills.map (fun s => String.mk (lowerL s.name.toList))
  if requiredSkills.isEmpty then 0.5
  else
    let matched := requiredSkills.countP (fun req =>
      resumeSkills.any (fun res => ratioExceeds req.toList res.toList))
    (matched : ℚ) / (requiredSkills.length : ℚ)

/-- The regex `(\d+)\s*years?` searched in a duration string
(`_calculate_total_experience_years`). -/
def findDurationYears (duration : String) : Option Nat :=
  let l := duration.toList
  (List.range (l.length + 1)).findSome? (fun p =>
    let tail := l.drop p
    let ds := tail.takeWhile Char.isDigit
    if ds.isEmpty then none
    else if ciPrefixOf "year".toList ((tail.drop ds.length).dropWhile Char.isWhitespace)
    then some (natOfDigits ds) else none)

def totalExperienceYears (exps : List RExperience) : Nat :=
  exps.foldl (fun acc e =>
    if e.duration.isEmpty then acc
    else
      match findDurationYears e.duration with
      | some n => acc + n
      | none => acc) 0

def determineExperienceLevel (years : Nat) : String :=
  if years < 2 then "entry"
  else if years < 5 then "mid"
  else if years < 10 then "senior"
  else "executive"

def levelHierarchy : List (String × Nat) :=
  [("entry", 1), ("mid", 2), ("senior", 3), ("executive", 4)]

def degreeHierarchy : List (String × Nat) :=
  [("certificate", 1), ("diploma", 2), ("associate", 3), ("bachelor", 4),
   ("master", 5), ("phd", 6)]

/-- `dict.get(key, 0)`. -/
def lookupD (m : List (String × Nat)) (k : String) : Nat :=
  match m.find? (fun pr => pr.1 == k) with
  | some pr => pr.2
  | none => 0

def calculateLevelMatch (actual required : String) : ℚ :=
  let a := lookupD levelHierarchy actual
  let r := lookupD levelHierarchy required
  if a ≥ r then 1 else max 0 ((a : ℚ) / (r : ℚ))

/-- `_calculate_experience_match` after the requirements mining. -/
def calculateExperienceMatch (resume : ResumeData) (req : ExperienceReq) : ℚ :=
  if resume.experience.isEmpty then 0
  else
    let totalYears := totalExperienceYears resume.experience
    let level := determineExperienceLevel totalYears
    if req.isEmptyDict then 0
    else
      let requiredYears := req.years.getD 0
      let requiredLevel := req.level.getD "any"
      let base : ℚ :=
        if (totalYears : ℚ) ≥ (requiredYears : ℚ) then
          min 1 ((totalYears : ℚ) / ((max requiredYears 1 : Nat) : ℚ))
        else max 0 ((totalYears : ℚ) / (requiredYears : ℚ))
      if requiredLevel ≠ "any" then
        (base + calculateLevelMatch level requiredLevel) / 2
      else base

def calculateDegreeMatch (actual required : String) : ℚ :=
  let a := lookupD degreeHierarchy actual
  let r := lookupD degreeHierarchy required
  if a ≥ r then 1 else max 0 ((a : ℚ) / (r : ℚ))

/-- `_find_highest_degree`: nested loop over education entries and hierarchy
levels, keeping the highest-scored level name occurring as a substring of a
lowercased degree string. -/
def findHighestDegree (edus : List REducation) : String :=
  (edus.foldl (fun best edu =>
    degreeHierarchy.foldl (fun best pr =>
      if isSubstr pr.1.toList (lowerL edu.degree.toList) ∧ pr.2 > best.2
      then (pr.1, pr.2) else best) best) ("none", 0)).1

def checkFieldMatch (edus : List REducation) (requiredField : String) : Bool :=
  if requiredField == "any" then true
  else edus.any (fun edu =>
    let f := lowerL edu.field_of_study.toList
    isSubstr requiredField.toList f || isSubstr f requiredField.toList)

/-- `_calculate_education_match` after the requirements mining. -/
def calculateEducationMatch (resume : ResumeData) (req : EducationReq) : ℚ :=
  if resume.education.isEmpty then 0
  else
    let highest := findHighestDegree resume.education
    if req.isEmptyDict then 0.7
    else
      let requiredDegree := req.degree.getD "any"
      let requiredField := req.field.getD "any"
      let degreeScore := calculateDegreeMatch highest requiredDegree
      let fieldScore : ℚ :=
        if checkFieldMatch resume.education requiredField then 1 else 0.5
      (degreeScore + fieldScore) / 2

/-- `_prepare_text_for_comparison`. -/
def prepareResumeText (r : ResumeData) : String :=
  let parts :=
    (match r.raw_text with | some t => [t] | none => [])
    ++ r.skills.map (fun s => s.name)
    ++ (r.experience.map (fun e => [e.position, e.company, e.description])).flatten
    ++ (r.education.map (fun e => [e.degree, e.institution, e.field_of_study])).flatten
  String.intercalate " " parts

/-- `_prepare_job_text_for_comparison`. -/
def prepareJobText (j : JobRequirements) : String :=
  String.intercalate " "
    ([j.description, j.requirements, j.title] ++ j.skills_required)

/-- `_calculate_word_overlap`: Jaccard similarity of the lowercased word
sets. -/
def calculateWordOverlap (t1 t2 : String) : ℚ :=
  let w1 : Finset String := ((pySplit (lowerL t1.toList)).map String.mk).toFinset
  let w2 : Finset String := ((pySplit (lowerL t2.toList)).map String.mk).toFinset
  if w1 = ∅ ∨ w2 = ∅ then 0
  else ((w1 ∩ w2).card : ℚ) / ((w1 ∪ w2).card : ℚ)

/-- `_calculate_text_similarity`.  The primary path vectorises both texts
with scikit-learn's `TfidfVectorizer` and takes the cosine similarity (an
external library; for nonnegative TF-IDF vectors that value also lies in
[0, 1]); the fallback implemented in this module, `_calculate_word_overlap`,
is the modelled similarity. -/
def calculateTextSimilarity (r : ResumeData) (j : JobRequirements) : ℚ :=
  let resumeText := prepareResumeText r
  let jobText := prepareJobText j
  if resumeText.isEmpty ∨ jobText.isEmpty then 0
  else calculateWordOverlap resumeText jobText

structure MatchResult where
  overall_score : ℚ
  skills_match : ℚ
  experience_match : ℚ
  education_match : ℚ
  text_similarity : ℚ

/-- `calculate_match_score` (the numeric fields; the analysis lists —
`detailed_analysis`, `missing_requirements`, `strengths`,
`recommendations` — are not referenced by any checked property). -/
def calculateMatchScore (resume : ResumeData) (job : JobRequirements) : MatchResult :=
  let skillsScore := calculateSkillsMatch resume (extractSkillsFromRequirements job)
  let experienceScore := calculateExperienceMatch resume (extractExperienceRequirements job)
  let educationScore := calculateEducationMatch resume (extractEducationRequirements job)
  let textScore := calculateTextSimilarity resume job
  let overall :=
    skillsScore * 0.4 + experienceScore * 0.3 + educationScore * 0.2 + textScore * 0.1
  { overall_score := min 100.0 (overall * 100),
    skills_match := skillsScore,
    experience_match := experienceScore,
    education_match := educationScore,
    text_similarity := textScore }

end ResumeMatcher

/-! ## `SonaJobs/resume_processor/ai_processor.py` — `AIProcessor`

`_extract_skills` is embedded in full (with `self.nlp = None`, the
documented fallback when no spaCy model is installed, so the noun-chunk
branch is skipped; were a model present, that branch inserts with the same
exact-name guard).  `_extract_experience`, `_extract_education` and
`_extract_contact_info` are passed to `extract_entities` as parameters with
the source functions' types — a `(list, confidence)` pair for the first two,
a plain string-to-string mapping (no confidence) for the contact extractor —
because no checked property depends on their internals, only on their
result shapes; the `Except` wrapping models the `try/except` of
`extract_entities`. -/

namespace AIProcessor

open PyStr

structure SkillEntry where
  name : String
  confidence : ℚ
  source : String
  context : String

structure ExperienceEntry where
  position : String
  company : String
  duration : String
  confidence : ℚ
  source : String
  context : String

structure EducationEntry where
  degree : String
  institution : String
  year : String
  confidence : ℚ
  source : String
  context : String

/-- The eight skill regex alternations of `AIProcessor.__init__`
(literal alternatives of `\b(?:…)\b` patterns, matched with `re.IGNORECASE`). -/
def skillPatternGroups : List (List String) :=
  [["Python", "Java", "JavaScript", "C++", "C#", "PHP", "Ruby", "Go", "Rust",
    "Swift", "Kotlin", "Scala"],
   ["HTML", "CSS", "SQL", "NoSQL", "MongoDB", "PostgreSQL", "MySQL", "Redis",
    "Elasticsearch"],
   ["React", "Angular", "Vue", "Node.js", "Django", "Flask", "Spring",
    "Laravel", "Express"],
   ["AWS", "Azure", "GCP", "Docker", "Kubernetes", "Jenkins", "Git", "GitHub",
    "GitLab"],
   ["Machine Learning", "AI", "Data Science", "Analytics", "Statistics", "R",
    "TensorFlow", "PyTorch"],
   ["Project Management", "Agile", "Scrum", "Kanban", "JIRA", "Confluence",
    "Slack", "Microsoft Office"],
   ["Photoshop", "Illustrator", "InDesign", "Figma", "Sketch",
    "Adobe Creative Suite"],
   ["Sales", "Marketing", "Customer Service", "Leadership", "Communication",
    "Team Management"]]

/-- `_get_context`: `text[max(0, start-50) : min(len, end+50)].strip()`. -/
def getContext (t : List Char) (s e : Nat) : String :=
  String.mk (stripL ((t.take (e + 50)).drop (s - 50)))

/-- `_extract_skills` (pattern pass): every `finditer` match of every
pattern, in order, is stripped and inserted unless an entry with the same
exact name is already present; category confidence is
`min(0.9, 0.1·count)` when any skill was found. -/
def extractSkills (text : String) : List SkillEntry × ℚ :=
  let t := text.toList
  let candidates : List (String × String) :=
    skillPatternGroups.foldl (fun acc pat =>
      acc ++ (finditer (pat.map String.toList) t).map (fun pr =>
        (String.mk (stripL ((t.drop pr.1).take pr.2)),
         getContext t pr.1 (pr.1 + pr.2)))) []
  let skills := candidates.foldl (fun skills c =>
    if c.1 = "" ∨ c.1 ∈ skills.map SkillEntry.name then skills
    else skills ++ [{ name := c.1, confidence := 0.8,
                      source := "pattern_match", context := c.2 }]) []
  let confidence : ℚ :=
    if skills.isEmpty then 0 else min 0.9 ((skills.length : ℚ) * 0.1)
  (skills, confidence)

structure Entities where
  skills : List SkillEntry
  experience : List ExperienceEntry
  education : List EducationEntry
  contact_info : List (String × String)
  confidence_scores : List (String × ℚ)
  overall_confidence : ℚ
  error : Option String

/-- `_empty_entities`. -/
def emptyEntities : Entities :=
  { skills := [], experience := [], education := [], contact_info := [],
    confidence_scores := [], overall_confidence := 0, error := none }

/-- `extract_entities`: blank input short-circuits to the empty result;
otherwise the four category extractors run in order inside a `try` whose
handler returns the empty result with the error recorded; the confidence
map receives the skills, experience and education confidences (the contact
extractor returns no confidence) and `overall_confidence` is their mean. -/
def extractEntities
    (skillsF : String → Except String (List SkillEntry × ℚ))
    (experienceF : String → Except String (List ExperienceEntry × ℚ))
    (educationF : String → Except String (List EducationEntry × ℚ))
    (contactF : String → Except String (List (String × String)))
    (text : String) : Entities :=
  if stripL text.toList = [] then emptyEntities
  else
    match skillsF text with
    | .error msg => { emptyEntities with error := some msg }
    | .ok s =>
      match experienceF text with
      | .error msg => { emptyEntities with error := some msg }
      | .ok e =>
        match educationF text with
        | .error msg => { emptyEntities with error := some msg }
        | .ok ed =>
          match contactF text with
          | .error msg => { emptyEntities with error := some msg }
          | .ok c =>
            let cs : List (String × ℚ) :=
              [("skills", s.2), ("experience", e.2), ("education", ed.2)]
            let confs := cs.map Prod.snd
            { skills := s.1, experience := e.1, education := ed.1,
              contact_info := c,
              confidence_scores := cs,
              overall_confidence :=
                if confs.isEmpty then 0 else confs.sum / (confs.length : ℚ),
              error := none }

end AIProcessor

/-! ## `jobs_platform/resume_processor/pdf_extractor.py` — `PDFExtractor`

The filesystem is a map from paths to `none` (no such file) or the outcome
of `pdfplumber.open` on that file: a raised parse error, or a document with
metadata strings and per-page `extract_text()` outcomes (a raised error, or
the extracted text — `None`/empty both being falsy, an empty string covers
both). -/

namespace PDFExtractor

open PyStr

structure PageEntry where
  page_number : Nat
  text : String
  word_count : Nat
  error : Option String

structure PdfMetadata where
  pages : Nat
  title : String
  author : String
  subject : String
  creator : String
  producer : String

/-- The metadata of a failure dict (`'metadata': {}` in the source; its
fields are never read on failure paths). -/
def emptyMetadata : PdfMetadata :=
  { pages := 0, title := "", author := "", subject := "", creator := "",
    producer := "" }

structure ExtractionResult where
  raw_text : String
  pages : List PageEntry
  metadata : PdfMetadata
  success : Bool
  error : Option String
  total_words : Option Nat

structure PdfDoc where
  metaTitle : String
  metaAuthor : String
  metaSubject : String
  metaCreator : String
  metaProducer : String
  pageResults : List (Except String String)

/-- `pathlib.Path(p).suffix`: for the final path component `name`, with
`i = name.rfind('.')`, the suffix is `name[i:]` when `0 < i < len(name)-1`
and empty otherwise. -/
def pathSuffixL (path : List Char) : List Char :=
  let name := ((path.splitOnP (fun c => c == '/')).getLast?).getD []
  let idx := (List.range name.length).foldl
    (fun acc i => if name[i]? = some '.' then some i else acc) none
  match idx with
  | some i => if 0 < i ∧ i + 1 < name.length then name.drop i else []
  | none => []

def pathSuffixLower (p : String) : String :=
  String.mk (lowerL (pathSuffixL p.toList))

def supported_formats : List String := [".pdf"]

def pyWordCount (s : String) : Nat := (pySplit s.toList).length

/-- The message of the `UnboundLocalError` that the `except` handler raises
when `extract_text` failed before `extracted_data` was assigned. -/
def unboundLocalMsg : String :=
  "UnboundLocalError: local variable referenced before assignment"

/-- `extract_text`.  The existence check and the format check `raise`
before `extracted_data = {…}` is executed, so the `except` handler's
`extracted_data['success'] = False` raises `UnboundLocalError`, which
propagates to the caller (modelled as `Except.error`).  Failures of
`pdfplumber.open` happen after the assignment, so the handler returns the
populated failure dict. -/
def extractText (fs : String → Option (Except String PdfDoc)) (path : String) :
    Except String ExtractionResult :=
  match fs path with
  | none => .error unboundLocalMsg
  | some openResult =>
    if pathSuffixLower path ∉ supported_formats then .error unboundLocalMsg
    else
      match openResult with
      | .error e =>
        .ok { raw_text := "", pages := [], metadata := emptyMetadata,
              success := false, error := some e, total_words := none }
      | .ok doc =>
        let step := fun (acc : List String × List PageEntry)
            (pr : Nat × Except String String) =>
          match pr.2 with
          | .ok t =>
            if t ≠ "" then
              (acc.1 ++ [t], acc.2 ++ [⟨pr.1, t, pyWordCount t, none⟩])
            else acc
          | .error e => (acc.1, acc.2 ++ [⟨pr.1, "", 0, some e⟩])
        let res := ((List.range' 1 doc.pageResults.length).zip doc.pageResults).foldl
          step ([], [])
        let raw := String.intercalate "\n" res.1
        .ok { raw_text := raw,
              pages := res.2,
              metadata := { pages := doc.pageResults.length,
                            title := doc.metaTitle, author := doc.metaAuthor,
                            subject := doc.metaSubject,
                            creator := doc.metaCreator,
                            producer := doc.metaProducer },
              success := true, error := none,
              total_words := some (pyWordCount raw) }

/-- The transient file created by
`tempfile.NamedTemporaryFile(delete=False, suffix='.pdf')`. -/
def tmpUploadPath : String := "tmpupload.pdf"

structure UploadOutcome where
  result : ExtractionResult
  /-- whether the transient file is still on disk after the call returns -/
  tmpRemains : Bool

/-- `extract_from_upload`.  `chunksRaise` models the upload stream raising
while being read inside the `with` block (after the transient file was
created); `openOutcome` models what `pdfplumber.open` does on the buffered
bytes.  `os.unlink` itself is modelled as succeeding (its own
`try/except` only logs a warning when the OS refuses). -/
def extractFromUpload (chunksRaise : Bool)
    (openOutcome : Except String PdfDoc) : UploadOutcome :=
  if chunksRaise then
    { result := { raw_text := "", pages := [], metadata := emptyMetadata,
                  success := false, error := some "chunks error",
                  total_words := none },
      tmpRemains := true }
  else
    match extractText
        (fun p => if p = tmpUploadPath then some openOutcome else none)
        tmpUploadPath with
    | .ok r => { result := r, tmpRemains := false }
    | .error e =>
      { result := { raw_text := "", pages := [], metadata := emptyMetadata,
                    success := false, error := some e, total_words := none },
        tmpRemains := true }

def tooShortIssue : String :=
  "Extracted text is too short (less than 50 characters)"

def fewKeywordsIssue : String := "Few resume-related keywords found"

def lowWordIssue : String := "Very low word count"

def highWordIssue : String :=
  "Extremely high word count (possible OCR issues)"

def resume_keywords : List String :=
  ["experience", "education", "skills", "work", "job", "position", "company"]

structure ValidationResult where
  is_valid : Bool
  issues : List String
  quality_score : ℚ

/-- Keyword hits: `sum(1 for keyword in resume_keywords if keyword.lower()
in text.lower())`. -/
def foundKeywords (text : List Char) : Nat :=
  resume_keywords.countP (fun k => isSubstr (lowerL k.toList) (lowerL text))

/-- `validate_extraction`. -/
def validateExtraction (d : ExtractionResult) : ValidationResult :=
  if d.success = false then
    { is_valid := false,
      issues := ["Extraction failed: " ++ d.error.getD "None"],
      quality_score := 0 }
  else
    let text := d.raw_text.toList
    let issues1 := if (stripL text).length < 50 then [tooShortIssue] else []
    let issues2 := issues1 ++
      (if foundKeywords text < 2 then [fewKeywordsIssue] else [])
    let wordCount := (pySplit text).length
    let issues3 := issues2 ++
      (if wordCount < 20 then [lowWordIssue]
       else if wordCount > 5000 then [highWordIssue] else [])
    let q1 : ℚ := if (stripL text).length ≥ 50 then 0.2 else 0
    let q2 : ℚ := if foundKeywords text ≥ 2 then 0.3 else 0
    let q3 : ℚ := if 20 ≤ wordCount ∧ wordCount ≤ 5000 then 0.3 else 0
    let q4 : ℚ := if d.metadata.pages > 0 then 0.2 else 0
    let q := q1 + q2 + q3 + q4
    { is_valid := decide (q ≥ 0.5), issues := issues3, quality_score := q }

/-- Modelled from the spec: the quality score as claim C3 states it, whose
fourth contribution is awarded when at least one page was *successfully
parsed* (a page entry without an error), rather than when the document's
metadata page count is positive. -/
def specQualityScore (d : ExtractionResult) : ℚ :=
  (if (stripL d.raw_text.toList).length ≥ 50 then (0.2 : ℚ) else 0)
  + (if foundKeywords d.raw_text.toList ≥ 2 then (0.3 : ℚ) else 0)
  + (if 20 ≤ (pySplit d.raw_text.toList).length ∧
        (pySplit d.raw_text.toList).length ≤ 5000 then (0.3 : ℚ) else 0)
  + (if d.pages.any (fun p => p.error.isNone) then (0.2 : ℚ) else 0)

end PDFExtractor

/-! ## Properties of the `difflib.SequenceMatcher` model -/

namespace DifflibModel

open PyStr

theorem cpl_self (l : List Char) : cpl l l = l.length := by
  induction l with
  | nil => rfl
  | cons a as ih => simp [cpl, ih]

theorem cpl_le_left (a b : List Char) : cpl a b ≤ a.length := by
  induction a generalizing b with
  | nil => cases b <;> simp [cpl]
  | cons x xs ih =>
    cases b with
    | nil => simp [cpl]
    | cons y ys =>
      simp only [cpl]
      split
      · exact Nat.succ_le_succ (ih ys)
      · exact Nat.zero_le _

theorem foldl_fixed {α β : Type} (f : α → β → α) (l : List β) (acc : α)
    (h : ∀ x ∈ l, f acc x = acc) : l.foldl f acc = acc := by
  induction l with
  | nil => rfl
  | cons x xs ih =>
    simp only [List.foldl_cons, h x (List.mem_cons_self x xs)]
    exact ih (fun y hy => h y (List.mem_cons_of_mem x hy))

theorem pairsUpTo_cons (n m : Nat) : ∃ t, pairsUpTo n m = (0, 0) :: t := by
  unfold pairsUpTo
  rw [List.range_succ_eq_map]
  rw [List.range_succ_eq_map]
  simp only [List.map_cons, List.flatten_cons, List.cons_append]
  exact ⟨_, rfl⟩

theorem lmStep_fixed (a b : List Char) (ij : Nat × Nat)
    (best : Nat × Nat × Nat) (h : best.2.2 = a.length) :
    lmStep a b best ij = best := by
  have hle : cpl (a.drop ij.1) (b.drop ij.2) ≤ a.length :=
    le_trans (cpl_le_left _ _) (by rw [List.length_drop]; omega)
  have hnot : ¬ cpl (a.drop ij.1) (b.drop ij.2) > best.2.2 := by
    rw [h]; exact not_lt.mpr hle
  simp [lmStep, hnot]

theorem lmBest_self (a : List Char) (ha : a ≠ []) :
    lmBest a a = (0, 0, a.length) := by
  have hlen : 0 < a.length := List.length_pos.mpr ha
  obtain ⟨t, ht⟩ := pairsUpTo_cons a.length a.length
  have hstep0 : lmStep a a (0, 0, 0) (0, 0) = (0, 0, a.length) := by
    simp [lmStep, cpl_self, hlen]
  unfold lmBest
  rw [ht, List.foldl_cons, hstep0]
  exact foldl_fixed _ _ _ (fun ij _ => lmStep_fixed a a ij _ rfl)

theorem matchSum_nil (fuel : Nat) : matchSum fuel [] [] = 0 := by
  cases fuel with
  | zero => rfl
  | succ n => rfl

theorem matchSum_self (a : List Char) (fuel : Nat) (ha : a ≠ []) :
    matchSum (fuel + 1) a a = a.length := by
  have hlen : 0 < a.length := List.length_pos.mpr ha
  simp only [matchSum, lmBest_self a ha]
  have hne : ¬ a.length = 0 := Nat.pos_iff_ne_zero.mp hlen
  simp [hne, matchSum_nil]

theorem ratioQ_self (a : List Char) : ratioQ a a = 1 := by
  by_cases ha : a = []
  · subst ha; simp [ratioQ]
  · have hlen : 0 < a.length := List.length_pos.mpr ha
    have hsum : a.length + a.length ≠ 0 := by omega
    obtain ⟨f, hf⟩ : ∃ f, a.length + a.length = f + 1 :=
      ⟨a.length + a.length - 1, by omega⟩
    unfold ratioQ
    rw [if_neg hsum, hf, matchSum_self a f ha]
    have hq : ((a.length : ℚ)) ≠ 0 := by exact_mod_cast Nat.pos_iff_ne_zero.mp hlen
    field_simp
    ring

theorem ratioQS_self (s : String) : ratioQS s s = 1 := ratioQ_self s.toList

theorem ratioExceeds_iff (a b : List Char) :
    ratioExceeds a b = true ↔ ratioQ a b > 0.8 := by
  unfold ratioExceeds ratioQ
  by_cases h : a.length + b.length = 0
  · simp only [h, if_pos rfl, if_true]
    norm_num
  · have hpos : 0 < a.length + b.length := Nat.pos_of_ne_zero h
    have hq : (0 : ℚ) < (a.length : ℚ) + (b.length : ℚ) := by
      have : (0 : ℚ) < ((a.length + b.length : Nat) : ℚ) := by exact_mod_cast hpos
      push_cast at this
      exact this
    simp only [if_neg h, decide_eq_true_eq, gt_iff_lt]
    rw [show (0.8 : ℚ) = 4 / 5 by norm_num, div_lt_div_iff₀ (by norm_num : (0:ℚ) < 5) hq]
    constructor
    · intro hlt
      have h2 : ((4 * (a.length + b.length) : Nat) : ℚ)
          < ((10 * matchSum (a.length + b.length) a b : Nat) : ℚ) := by exact_mod_cast hlt
      push_cast at h2
      nlinarith [h2]
    · intro hlt
      have h2 : ((4 * (a.length + b.length) : Nat) : ℚ)
          < ((10 * matchSum (a.length + b.length) a b : Nat) : ℚ) := by
        push_cast
        nlinarith [hlt]
      exact_mod_cast h2

theorem ratioExceeds_self (l : List Char) : ratioExceeds l l = true := by
  by_cases h : l = []
  · subst h; rfl
  · have hlen : 0 < l.length := List.length_pos.mpr h
    obtain ⟨f, hf⟩ : ∃ f, l.length + l.length = f + 1 :=
      ⟨l.length + l.length - 1, by omega⟩
    unfold ratioExceeds
    simp only [hf, matchSum_self l f h]
    have hne : ¬ l.length + l.length = 0 := by omega
    rw [hf] at hne
    simp only [if_neg hne, decide_eq_true_eq]
    omega

end DifflibModel

/-! ## Checked properties -/

/-- C2: for every input string that is empty or consists only of whitespace,
`extract_entities` returns a result whose skills, experience and education
collections are empty, whose contact_info is empty, and whose
overall_confidence equals 0.0, without treating this as an error (no error
field is set), for every choice of the category extractors. -/
theorem extract_entities_blank_input
    (skillsF : String → Except String (List AIProcessor.SkillEntry × ℚ))
    (experienceF : String → Except String (List AIProcessor.ExperienceEntry × ℚ))
    (educationF : String → Except String (List AIProcessor.EducationEntry × ℚ))
    (contactF : String → Except String (List (String × String)))
    (text : String) (h : PyStr.stripL text.toList = []) :
    (AIProcessor.extractEntities skillsF experienceF educationF contactF text).skills = []
    ∧ (AIProcessor.extractEntities skillsF experienceF educationF contactF text).experience = []
    ∧ (AIProcessor.extractEntities skillsF experienceF educationF contactF text).education = []
    ∧ (AIProcessor.extractEntities skillsF experienceF educationF contactF text).contact_info = []
    ∧ (AIProcessor.extractEntities skillsF experienceF educationF contactF text).overall_confidence = 0
    ∧ (AIProcessor.extractEntities skillsF experienceF educationF contactF text).error = none := by
  have he : AIProcessor.extractEntities skillsF experienceF educationF contactF text
      = AIProcessor.emptyEntities := by
    unfold AIProcessor.extractEntities
    rw [if_pos h]
  rw [he]
  exact ⟨rfl, rfl, rfl, rfl, rfl, rfl⟩

/-- Witness for C2 at the whitespace-only input `"  "` with concrete
category extractors. -/
theorem extract_entities_blank_input_witness :
    (AIProcessor.extractEntities (fun _ => .ok ([], 0)) (fun _ => .ok ([], 0))
      (fun _ => .ok ([], 0)) (fun _ => .ok []) "  ").skills = []
    ∧ (AIProcessor.extractEntities (fun _ => .ok ([], 0)) (fun _ => .ok ([], 0))
      (fun _ => .ok ([], 0)) (fun _ => .ok []) "  ").overall_confidence = 0 :=
  ⟨(extract_entities_blank_input (fun _ => .ok ([], 0)) (fun _ => .ok ([], 0))
      (fun _ => .ok ([], 0)) (fun _ => .ok []) "  " (by decide)).1,
   (extract_entities_blank_input (fun _ => .ok ([], 0)) (fun _ => .ok ([], 0))
      (fun _ => .ok ([], 0)) (fun _ => .ok []) "  " (by decide)).2.2.2.2.1⟩

/-- C10: when the job's combined description and requirements text yields
neither a years-of-experience figure nor an experience-level keyword, the
experience match score is 0.0, whatever the resume contains (in particular
for resumes with many experience entries) — there is no neutral default for
an undeclared experience requirement. -/
theorem experience_match_zero_without_mined_requirement
    (r : ResumeMatcher.ResumeData) (j : ResumeMatcher.JobRequirements)
    (hy : ResumeMatcher.searchYearsOfExp (ResumeMatcher.combinedText j).toList = none)
    (hl : ResumeMatcher.searchLevel (ResumeMatcher.combinedText j).toList = none) :
    ResumeMatcher.calculateExperienceMatch r
      (ResumeMatcher.extractExperienceRequirements j) = 0 := by
  have hreq : ResumeMatcher.extractExperienceRequirements j = ⟨none, none⟩ := by
    simp only [ResumeMatcher.extractExperienceRequirements]
    rw [hy, hl]
  rw [hreq]
  unfold ResumeMatcher.calculateExperienceMatch
  simp [ResumeMatcher.ExperienceReq.isEmptyDict]

/-- Witness for C10: a job text mentioning no experience requirement and a
resume with three experience entries. -/
theorem experience_match_zero_without_mined_requirement_witness :
    ResumeMatcher.calculateExperienceMatch
      ⟨none, [],
       [⟨"Engineer", "Acme Inc", "4 years", "built things"⟩,
        ⟨"Developer", "Beta LLC", "3 years", "wrote code"⟩,
        ⟨"Analyst", "Gamma Corp", "2 years", "analysed data"⟩], []⟩
      (ResumeMatcher.extractExperienceRequirements
        ⟨"", "We build compilers.", "", []⟩) = 0 :=
  experience_match_zero_without_mined_requirement
    ⟨none, [],
     [⟨"Engineer", "Acme Inc", "4 years", "built things"⟩,
      ⟨"Developer", "Beta LLC", "3 years", "wrote code"⟩,
      ⟨"Analyst", "Gamma Corp", "2 years", "analysed data"⟩], []⟩
    ⟨"", "We build compilers.", "", []⟩ (by decide) (by decide)

/-- C6 (code bug): for a path whose extension is not `.pdf` — and likewise
for a non-existent path — `extract_text` raises (the `FileNotFoundError` /
`ValueError` is raised before `extracted_data` is assigned, so the `except`
handler's first statement raises `UnboundLocalError`) instead of returning a
`success=False` result as the claim states. -/
theorem extract_text_raises_unbound_local :
    PDFExtractor.extractText
      (fun p => if p = "resume.txt"
        then some (.ok ⟨"", "", "", "", "", []⟩) else none) "resume.txt"
      = .error PDFExtractor.unboundLocalMsg
    ∧ PDFExtractor.extractText (fun _ => none) "missing.pdf"
      = .error PDFExtractor.unboundLocalMsg :=
  ⟨rfl, rfl⟩

/-- C9 counterexample: when the upload stream raises while being read (after
the transient file was created), `extract_from_upload` returns the error
dict from its outer handler and the transient file is left behind — the
claimed all-exit-paths cleanup does not hold. -/
theorem upload_tmpfile_left_behind_counterexample :
    (PDFExtractor.extractFromUpload true (.error "corrupt stream")).tmpRemains
      = true := rfl

/-- C9 amended: the transient file is removed whenever buffering the upload
completes without an exception (whatever `pdfplumber` then does with the
buffered bytes); an exception raised while reading the stream leaves the
transient file behind. -/
theorem upload_tmpfile_removed_when_buffering_succeeds
    (o : Except String PDFExtractor.PdfDoc) :
    (PDFExtractor.extractFromUpload false o).tmpRemains = false := by
  cases o with
  | error e => rfl
  | ok doc => rfl

/-- C4 counterexample: text containing "Python" three times in different
casings yields three skill entries, not one — and two of the returned names
are equal ignoring case, refuting case-insensitive uniqueness.  (The
insertion guard `skill not in [s['name'] for s in skills]` compares names
exactly.) -/
theorem extract_skills_case_sensitive_counterexample :
    ((AIProcessor.extractSkills "Python python PYTHON").1.map
        AIProcessor.SkillEntry.name = ["Python", "python", "PYTHON"])
    ∧ (AIProcessor.extractSkills "Python python PYTHON").1.length ≠ 1
    ∧ PyStr.lowerL "Python".toList = PyStr.lowerL "python".toList := by
  refine ⟨by decide, by decide, by decide⟩

/-- C4 amended: the skill names returned by one `_extract_skills` pass are
*exactly* (case-sensitively) unique — duplicates are suppressed at
insertion, first occurrence wins — but occurrences differing in case
produce separate entries. -/
theorem extract_skills_names_nodup (text : String) :
    ((AIProcessor.extractSkills text).1.map AIProcessor.SkillEntry.name).Nodup := by
  have key : ∀ (cs : List (String × String)) (acc : List AIProcessor.SkillEntry),
      (acc.map AIProcessor.SkillEntry.name).Nodup →
      (((cs.foldl (fun skills c =>
          if c.1 = "" ∨ c.1 ∈ skills.map AIProcessor.SkillEntry.name then skills
          else skills ++ [{ name := c.1, confidence := 0.8,
                            source := "pattern_match", context := c.2 }]) acc)).map
        AIProcessor.SkillEntry.name).Nodup := by
    intro cs
    induction cs with
    | nil => intro acc h; exact h
    | cons c cs ih =>
      intro acc h
      rw [List.foldl_cons]
      by_cases hc : c.1 = "" ∨ c.1 ∈ acc.map AIProcessor.SkillEntry.name
      · rw [if_pos hc]
        exact ih acc h
      · rw [if_neg hc]
        refine ih _ ?_
        rw [List.map_append, List.map_cons, List.map_nil]
        rw [List.nodup_append]
        refine ⟨h, List.nodup_singleton _, ?_⟩
        intro x hx hx'
        have hx1 : x = c.1 := by simpa using hx'
        subst hx1
        exact (not_or.mp hc).2 hx
  unfold AIProcessor.extractSkills
  exact key _ [] (by simp)

theorem dropWhile_len_le (p : Char → Bool) (l : List Char) :
    (l.dropWhile p).length ≤ l.length := by
  induction l with
  | nil => simp
  | cons x xs ih =>
    rw [List.dropWhile_cons]
    split
    · exact le_trans ih (Nat.le_succ _)
    · simp

theorem stripL_length_le (l : List Char) : (PyStr.stripL l).length ≤ l.length := by
  unfold PyStr.stripL
  calc ((l.dropWhile Char.isWhitespace).reverse.dropWhile
          Char.isWhitespace).reverse.length
      = ((l.dropWhile Char.isWhitespace).reverse.dropWhile
          Char.isWhitespace).length := List.length_reverse _
    _ ≤ (l.dropWhile Char.isWhitespace).reverse.length :=
        dropWhile_len_le _ _
    _ = (l.dropWhile Char.isWhitespace).length := List.length_reverse _
    _ ≤ l.length := dropWhile_len_le _ _

/-- Evaluation form of `validate_extraction` on a successful result: the
quality score as the sum of the four contributions, the validity threshold,
and the issue list. -/
theorem validateExtraction_success_eval
    (d : PDFExtractor.ExtractionResult) (h : d.success = true) :
    (PDFExtractor.validateExtraction d).quality_score =
      (if (PyStr.stripL d.raw_text.toList).length ≥ 50 then (0.2 : ℚ) else 0)
      + (if PDFExtractor.foundKeywords d.raw_text.toList ≥ 2 then (0.3 : ℚ) else 0)
      + (if 20 ≤ (PyStr.pySplit d.raw_text.toList).length ∧
            (PyStr.pySplit d.raw_text.toList).length ≤ 5000 then (0.3 : ℚ) else 0)
      + (if d.metadata.pages > 0 then (0.2 : ℚ) else 0)
    ∧ ((PDFExtractor.validateExtraction d).is_valid = true ↔
        (0.5 : ℚ) ≤ (PDFExtractor.validateExtraction d).quality_score)
    ∧ (PDFExtractor.validateExtraction d).issues =
        (if (PyStr.stripL d.raw_text.toList).length < 50
          then [PDFExtractor.tooShortIssue] else [])
        ++ ((if PDFExtractor.foundKeywords d.raw_text.toList < 2
          then [PDFExtractor.fewKeywordsIssue] else [])
        ++ (if (PyStr.pySplit d.raw_text.toList).length < 20
          then [PDFExtractor.lowWordIssue]
          else if (PyStr.pySplit d.raw_text.toList).length > 5000
          then [PDFExtractor.highWordIssue] else [])) := by
  simp only [PDFExtractor.validateExtraction, h]
  refine ⟨rfl, ?_, ?_⟩
  · simp [decide_eq_true_eq, ge_iff_le]
  · simp [List.append_assoc]

/-- C3 counterexample: a successful extraction of a one-page document whose
single page produced no text (`raw_text` empty, no page entry appended).
No page was successfully parsed, so the claimed fourth contribution is 0 and
the claimed quality score is 0; the code instead awards 0.2 because the
*metadata page count* is positive. -/
theorem validate_extraction_page_check_counterexample :
    (PDFExtractor.validateExtraction
        ⟨"", [], ⟨1, "", "", "", "", ""⟩, true, none, some 0⟩).quality_score = 0.2
    ∧ PDFExtractor.specQualityScore
        ⟨"", [], ⟨1, "", "", "", "", ""⟩, true, none, some 0⟩ = 0
    ∧ ((0.2 : ℚ) ≠ 0) := by
  refine ⟨?_, ?_, by norm_num⟩
  · obtain ⟨hq, -, -⟩ := validateExtraction_success_eval
      ⟨"", [], ⟨1, "", "", "", "", ""⟩, true, none, some 0⟩ rfl
    rw [hq]
    rw [if_neg (by decide), if_neg (by decide), if_neg (by decide),
      if_pos (by decide)]
    norm_num
  · unfold PDFExtractor.specQualityScore
    rw [if_neg (by decide), if_neg (by decide), if_neg (by decide),
      if_neg (by decide)]
    norm_num

/-- C3 amended: for every successful extraction result, `quality_score` is
the sum of four independent contributions — 0.2 for stripped length ≥ 50,
0.3 for ≥ 2 resume keywords, 0.3 for a word count in [20, 5000], and 0.2
when the *metadata page count* is positive (regardless of whether any page
was successfully parsed) — `is_valid` holds exactly when the score reaches
0.5, and issue strings are appended for the three text checks only (the
page-count check appends none). -/
theorem validate_extraction_quality_breakdown
    (d : PDFExtractor.ExtractionResult) (h : d.success = true) :
    (PDFExtractor.validateExtraction d).quality_score =
      (if (PyStr.stripL d.raw_text.toList).length ≥ 50 then (0.2 : ℚ) else 0)
      + (if PDFExtractor.foundKeywords d.raw_text.toList ≥ 2 then (0.3 : ℚ) else 0)
      + (if 20 ≤ (PyStr.pySplit d.raw_text.toList).length ∧
            (PyStr.pySplit d.raw_text.toList).length ≤ 5000 then (0.3 : ℚ) else 0)
      + (if d.metadata.pages > 0 then (0.2 : ℚ) else 0)
    ∧ ((PDFExtractor.validateExtraction d).is_valid = true ↔
        (0.5 : ℚ) ≤ (PDFExtractor.validateExtraction d).quality_score)
    ∧ (PDFExtractor.validateExtraction d).issues =
        (if (PyStr.stripL d.raw_text.toList).length < 50
          then [PDFExtractor.tooShortIssue] else [])
        ++ (if PDFExtractor.foundKeywords d.raw_text.toList < 2
          then [PDFExtractor.fewKeywordsIssue] else [])
        ++ (if (PyStr.pySplit d.raw_text.toList).length < 20
          then [PDFExtractor.lowWordIssue]
          else if (PyStr.pySplit d.raw_text.toList).length > 5000
          then [PDFExtractor.highWordIssue] else []) := by
  simp only [PDFExtractor.validateExtraction, h]
  refine ⟨rfl, ?_, ?_⟩
  · simp [decide_eq_true_eq, ge_iff_le]
  · simp [List.append_assoc]

/-- Witness for C3 (amended): the `is_valid ↔ quality_score ≥ 0.5` clause at
a concrete successful result. -/
theorem validate_extraction_quality_breakdown_witness :
    (PDFExtractor.validateExtraction
        ⟨"short", [], ⟨0, "", "", "", "", ""⟩, true, none, some 1⟩).is_valid = true ↔
      (0.5 : ℚ) ≤ (PDFExtractor.validateExtraction
        ⟨"short", [], ⟨0, "", "", "", "", ""⟩, true, none, some 1⟩).quality_score :=
  (validate_extraction_quality_breakdown
    ⟨"short", [], ⟨0, "", "", "", "", ""⟩, true, none, some 1⟩ rfl).2.1

/-- C5 counterexample: a successful 44-character extraction ("job work"
followed by 18 one-letter words, with one metadata page) is shorter than 50
characters yet validates with `is_valid = True`: the keyword, word-count and
page checks contribute 0.3 + 0.3 + 0.2 = 0.8 ≥ 0.5.  The "too short" issue
is still appended. -/
theorem validate_short_text_valid_counterexample :
    ("job work a a a a a a a a a a a a a a a a a a" : String).toList.length < 50
    ∧ (PDFExtractor.validateExtraction
        ⟨"job work a a a a a a a a a a a a a a a a a a",
         [⟨1, "job work a a a a a a a a a a a a a a a a a a", 20, none⟩],
         ⟨1, "", "", "", "", ""⟩, true, none, some 20⟩).is_valid = true
    ∧ PDFExtractor.tooShortIssue ∈ (PDFExtractor.validateExtraction
        ⟨"job work a a a a a a a a a a a a a a a a a a",
         [⟨1, "job work a a a a a a a a a a a a a a a a a a", 20, none⟩],
         ⟨1, "", "", "", "", ""⟩, true, none, some 20⟩).issues := by
  obtain ⟨hq, hv, hi⟩ := validateExtraction_success_eval
    ⟨"job work a a a a a a a a a a a a a a a a a a",
     [⟨1, "job work a a a a a a a a a a a a a a a a a a", 20, none⟩],
     ⟨1, "", "", "", "", ""⟩, true, none, some 20⟩ rfl
  refine ⟨by decide, ?_, ?_⟩
  · rw [hv, hq]
    rw [if_neg (by decide), if_pos (by decide), if_pos (by decide),
      if_pos (by decide)]
    norm_num
  · rw [hi]
    rw [if_pos (by decide)]
    simp

/-- C5 amended: for every successful result whose raw text is shorter than
50 characters, the "too short" issue is reported, and `is_valid` is false
exactly when the remaining three checks (keywords, word count, metadata
pages) sum below 0.5 — a sub-50-character text can still be valid. -/
theorem validate_short_text_reports_issue
    (d : PDFExtractor.ExtractionResult) (h : d.success = true)
    (hshort : d.raw_text.toList.length < 50) :
    PDFExtractor.tooShortIssue ∈ (PDFExtractor.validateExtraction d).issues
    ∧ ((PDFExtractor.validateExtraction d).is_valid = true ↔
        (0.5 : ℚ) ≤
          (if PDFExtractor.foundKeywords d.raw_text.toList ≥ 2
            then (0.3 : ℚ) else 0)
          + (if 20 ≤ (PyStr.pySplit d.raw_text.toList).length ∧
              (PyStr.pySplit d.raw_text.toList).length ≤ 5000
            then (0.3 : ℚ) else 0)
          + (if d.metadata.pages > 0 then (0.2 : ℚ) else 0)) := by
  have hs : (PyStr.stripL d.raw_text.toList).length < 50 :=
    lt_of_le_of_lt (stripL_length_le _) hshort
  have hq1 : ¬ ((PyStr.stripL d.raw_text.toList).length ≥ 50) := by omega
  obtain ⟨hq, hv, hi⟩ := validateExtraction_success_eval d h
  constructor
  · rw [hi, if_pos hs]
    simp
  · rw [hv, hq, if_neg hq1, zero_add]

/-- Witness for C5 (amended) at a concrete 8-character successful result. -/
theorem validate_short_text_reports_issue_witness :
    PDFExtractor.tooShortIssue ∈ (PDFExtractor.validateExtraction
      ⟨"job work", [⟨1, "job work", 2, none⟩], ⟨1, "", "", "", "", ""⟩,
       true, none, some 2⟩).issues :=
  (validate_short_text_reports_issue
    ⟨"job work", [⟨1, "job work", 2, none⟩], ⟨1, "", "", "", "", ""⟩,
     true, none, some 2⟩ rfl (by decide)).1

/-- Evaluation form of `extract_entities` on a non-blank text when all four
category extractors return normally. -/
theorem extractEntities_ok_eval
    (skillsF : String → Except String (List AIProcessor.SkillEntry × ℚ))
    (experienceF : String → Except String (List AIProcessor.ExperienceEntry × ℚ))
    (educationF : String → Except String (List AIProcessor.EducationEntry × ℚ))
    (contactF : String → Except String (List (String × String)))
    (text : String) (s : List AIProcessor.SkillEntry × ℚ)
    (e : List AIProcessor.ExperienceEntry × ℚ)
    (ed : List AIProcessor.EducationEntry × ℚ)
    (c : List (String × String))
    (hb : ¬ PyStr.stripL text.toList = [])
    (hs : skillsF text = .ok s) (he : experienceF text = .ok e)
    (hd : educationF text = .ok ed) (hc : contactF text = .ok c) :
    (AIProcessor.extractEntities skillsF experienceF educationF contactF
        text).confidence_scores
      = [("skills", s.2), ("experience", e.2), ("education", ed.2)]
    ∧ (AIProcessor.extractEntities skillsF experienceF educationF contactF
        text).overall_confidence = (s.2 + e.2 + ed.2) / 3
    ∧ (AIProcessor.extractEntities skillsF experienceF educationF contactF
        text).error = none := by
  have hb' : ¬ PyStr.stripL text.data = [] := hb
  refine ⟨?_, ?_, ?_⟩
  · simp [AIProcessor.extractEntities, hb', hs, he, hd, hc]
  · simp only [AIProcessor.extractEntities, if_neg hb, hs, he, hd, hc]
    simp only [List.map_cons, List.map_nil, List.isEmpty_cons, List.sum_cons,
      List.sum_nil, List.length_cons, List.length_nil, Bool.false_eq_true,
      if_false]
    push_cast
    ring
  · simp [AIProcessor.extractEntities, hb', hs, he, hd, hc]

/-- C8 counterexample: on the non-blank text "Python", with the embedded
skill extractor and extractors returning normally for the other categories,
`confidence_scores` holds exactly the skills, experience and education
entries — no contact-info confidence is ever computed — and
`overall_confidence` is the mean of those *three* values, so it is not the
mean of four category confidences as the claim states. -/
theorem overall_confidence_contact_missing_counterexample :
    ((AIProcessor.extractEntities (fun t => .ok (AIProcessor.extractSkills t))
        (fun _ => .ok ([], 0.6)) (fun _ => .ok ([], 0.9))
        (fun _ => .ok [("email", "a@b.co")]) "Python").confidence_scores.map
        Prod.fst = ["skills", "experience", "education"])
    ∧ ("contact_info" ∉ ((AIProcessor.extractEntities
        (fun t => .ok (AIProcessor.extractSkills t))
        (fun _ => .ok ([], 0.6)) (fun _ => .ok ([], 0.9))
        (fun _ => .ok [("email", "a@b.co")]) "Python").confidence_scores.map
        Prod.fst))
    ∧ (AIProcessor.extractEntities (fun t => .ok (AIProcessor.extractSkills t))
        (fun _ => .ok ([], 0.6)) (fun _ => .ok ([], 0.9))
        (fun _ => .ok [("email", "a@b.co")]) "Python").overall_confidence
      = ((AIProcessor.extractSkills "Python").2 + 0.6 + 0.9) / 3 := by
  obtain ⟨h1, h2, -⟩ := extractEntities_ok_eval
    (fun t => .ok (AIProcessor.extractSkills t))
    (fun _ => .ok ([], 0.6)) (fun _ => .ok ([], 0.9))
    (fun _ => .ok [("email", "a@b.co")]) "Python"
    (AIProcessor.extractSkills "Python") ([], 0.6) ([], 0.9)
    [("email", "a@b.co")] (by decide) rfl rfl rfl rfl
  refine ⟨by rw [h1]; rfl, by rw [h1]; simp, h2⟩

/-- C8 amended: for every non-blank text on which no extractor raises,
`overall_confidence` is the arithmetic mean of the *three* category
confidences that are computed — skills, experience and education; the
contact-info extraction contributes no confidence entry. -/
theorem overall_confidence_mean_of_three
    (skillsF : String → Except String (List AIProcessor.SkillEntry × ℚ))
    (experienceF : String → Except String (List AIProcessor.ExperienceEntry × ℚ))
    (educationF : String → Except String (List AIProcessor.EducationEntry × ℚ))
    (contactF : String → Except String (List (String × String)))
    (text : String) (s : List AIProcessor.SkillEntry × ℚ)
    (e : List AIProcessor.ExperienceEntry × ℚ)
    (ed : List AIProcessor.EducationEntry × ℚ)
    (c : List (String × String))
    (hb : ¬ PyStr.stripL text.toList = [])
    (hs : skillsF text = .ok s) (he : experienceF text = .ok e)
    (hd : educationF text = .ok ed) (hc : contactF text = .ok c) :
    (AIProcessor.extractEntities skillsF experienceF educationF contactF
        text).overall_confidence = (s.2 + e.2 + ed.2) / 3
    ∧ (AIProcessor.extractEntities skillsF experienceF educationF contactF
        text).confidence_scores.map Prod.fst
      = ["skills", "experience", "education"] := by
  obtain ⟨h1, h2, -⟩ := extractEntities_ok_eval skillsF experienceF educationF
    contactF text s e ed c hb hs he hd hc
  exact ⟨h2, by rw [h1]; rfl⟩

/-- Witness for C8 (amended) at the text "x" with concrete extractors. -/
theorem overall_confidence_mean_of_three_witness :
    (AIProcessor.extractEntities (fun _ => .ok ([], 0.3))
        (fun _ => .ok ([], 0.6)) (fun _ => .ok ([], 0.9)) (fun _ => .ok [])
        "x").overall_confidence = ((0.3 : ℚ) + 0.6 + 0.9) / 3 :=
  (overall_confidence_mean_of_three (fun _ => .ok ([], 0.3))
    (fun _ => .ok ([], 0.6)) (fun _ => .ok ([], 0.9)) (fun _ => .ok [])
    "x" ([], 0.3) ([], 0.6) ([], 0.9) [] (by decide) rfl rfl rfl rfl).1

theorem calculateSkillsMatch_empty (resume : ResumeMatcher.ResumeData) :
    ResumeMatcher.calculateSkillsMatch resume [] = 0.5 := by
  simp [ResumeMatcher.calculateSkillsMatch]

/-- Evaluation form of `_calculate_skills_match` with a nonempty required
list: the matched fraction. -/
theorem calculateSkillsMatch_eval (resume : ResumeMatcher.ResumeData)
    (req : List String) (h : ¬ req.isEmpty = true) :
    ResumeMatcher.calculateSkillsMatch resume req =
      ((req.countP (fun r =>
          (resume.skills.map (fun k => String.mk (PyStr.lowerL k.name.toList))).any
            (fun t => DifflibModel.ratioExceeds r.toList t.toList)) : ℕ) : ℚ)
        / (req.length : ℚ) := by
  simp only [ResumeMatcher.calculateSkillsMatch]
  rw [if_neg h]

set_option maxRecDepth 20000 in
/-- C7 counterexample: with resume skill set {"javaa"} and required list
["python"], the skills-match score is 0; appending the required skill
"java" — absent from the resume by exact name — *raises* the score to 1/2,
because "java" is more than 80% similar to "javaa" (ratio 8/9), refuting
the claim that appending a required skill absent from the resume never
increases the score. -/
theorem skills_match_fuzzy_increase_counterexample :
    ("java" ∉ (ResumeMatcher.ResumeData.mk none [⟨"javaa"⟩] [] []).skills.map
        ResumeMatcher.RSkill.name)
    ∧ ResumeMatcher.calculateSkillsMatch
        (ResumeMatcher.ResumeData.mk none [⟨"javaa"⟩] [] []) ["python", "java"]
      > ResumeMatcher.calculateSkillsMatch
        (ResumeMatcher.ResumeData.mk none [⟨"javaa"⟩] [] []) ["python"] := by
  have e1 : (["python", "java"].countP (fun r =>
      ((ResumeMatcher.ResumeData.mk none [⟨"javaa"⟩] [] []).skills.map
        (fun k => String.mk (PyStr.lowerL k.name.toList))).any
          (fun t => DifflibModel.ratioExceeds r.toList t.toList))) = 1 := by
    simp only [List.countP_cons, List.countP_nil, List.map_cons, List.map_nil,
      List.any_cons, List.any_nil]
    rw [show DifflibModel.ratioExceeds "python".toList
        (String.mk (PyStr.lowerL ("javaa" : String).toList)).toList = false
      from by decide]
    rw [show DifflibModel.ratioExceeds "java".toList
        (String.mk (PyStr.lowerL ("javaa" : String).toList)).toList = true
      from by decide]
    rfl
  have e2 : (["python"].countP (fun r =>
      ((ResumeMatcher.ResumeData.mk none [⟨"javaa"⟩] [] []).skills.map
        (fun k => String.mk (PyStr.lowerL k.name.toList))).any
          (fun t => DifflibModel.ratioExceeds r.toList t.toList))) = 0 := by
    simp only [List.countP_cons, List.countP_nil, List.map_cons, List.map_nil,
      List.any_cons, List.any_nil]
    rw [show DifflibModel.ratioExceeds "python".toList
        (String.mk (PyStr.lowerL ("javaa" : String).toList)).toList = false
      from by decide]
    rfl
  constructor
  · decide
  · rw [calculateSkillsMatch_eval _ ["python", "java"] (by decide),
      calculateSkillsMatch_eval _ ["python"] (by decide), e1, e2]
    norm_num

/-- C7 amended: the skills-match score is monotonic in the required-skill
list in the following sense.  Appending a required skill that equals (after
the code's lowercasing) one of the resume's skill names never decreases the
score; appending a required skill to which *no* resume skill is more than
80% similar (`SequenceMatcher` ratio ≤ 0.8) never increases it.  ("Absent
from the resume" is not enough for the second half: a fuzzy match above the
0.8 threshold can still count, see the counterexample.) -/
theorem skills_match_append_monotonic (resume : ResumeMatcher.ResumeData)
    (req : List String) (s : String) :
    (s ∈ resume.skills.map (fun k => String.mk (PyStr.lowerL k.name.toList)) →
      ResumeMatcher.calculateSkillsMatch resume (req ++ [s])
        ≥ ResumeMatcher.calculateSkillsMatch resume req)
    ∧ ((∀ t ∈ resume.skills.map (fun k => String.mk (PyStr.lowerL k.name.toList)),
          DifflibModel.ratioQ s.toList t.toList ≤ 0.8) →
      ResumeMatcher.calculateSkillsMatch resume (req ++ [s])
        ≤ ResumeMatcher.calculateSkillsMatch resume req) := by
  have happ : ¬ (req ++ [s]).isEmpty = true := by simp
  constructor
  · intro hmem
    have hPs : ((resume.skills.map
        (fun k => String.mk (PyStr.lowerL k.name.toList))).any
        (fun t => DifflibModel.ratioExceeds s.toList t.toList)) = true :=
      List.any_eq_true.mpr ⟨s, hmem, DifflibModel.ratioExceeds_self s.toList⟩
    have hc1 : ([s].countP (fun r =>
        (resume.skills.map (fun k => String.mk (PyStr.lowerL k.name.toList))).any
          (fun t => DifflibModel.ratioExceeds r.toList t.toList))) = 1 := by
      simp only [List.countP_cons, List.countP_nil, hPs]
      rfl
    by_cases hreq : req.isEmpty = true
    · have hnil : req = [] := List.isEmpty_iff.mp hreq
      subst hnil
      rw [List.nil_append, calculateSkillsMatch_empty,
        calculateSkillsMatch_eval _ [s] (by simp), hc1]
      norm_num
    · rw [calculateSkillsMatch_eval _ (req ++ [s]) happ,
        calculateSkillsMatch_eval _ req hreq, List.countP_append, hc1]
      have hm : req.countP (fun r =>
          (resume.skills.map (fun k => String.mk (PyStr.lowerL k.name.toList))).any
            (fun t => DifflibModel.ratioExceeds r.toList t.toList))
          ≤ req.length := List.countP_le_length _
      have hmQ : ((req.countP (fun r =>
          (resume.skills.map (fun k => String.mk (PyStr.lowerL k.name.toList))).any
            (fun t => DifflibModel.ratioExceeds r.toList t.toList)) : ℕ) : ℚ)
          ≤ (req.length : ℚ) := by exact_mod_cast hm
      have hn : 0 < req.length :=
        List.length_pos.mpr (fun hh => hreq (by simp [hh]))
      have hn1 : (0 : ℚ) < (req.length : ℚ) := by exact_mod_cast hn
      have hn2 : (0 : ℚ) < ((req ++ [s]).length : ℚ) := by
        have : 0 < (req ++ [s]).length := by simp
        exact_mod_cast this
      rw [ge_iff_le, div_le_div_iff₀ hn1 hn2]
      simp only [List.length_append, List.length_cons, List.length_nil]
      push_cast
      nlinarith [hmQ, hn1]
  · intro hno
    have hPs : ((resume.skills.map
        (fun k => String.mk (PyStr.lowerL k.name.toList))).any
        (fun t => DifflibModel.ratioExceeds s.toList t.toList)) = false := by
      rw [List.any_eq_false]
      intro t ht
      intro habs
      have hgt := (DifflibModel.ratioExceeds_iff s.toList t.toList).mp habs
      exact absurd hgt (not_lt.mpr (hno t ht))
    have hc0 : ([s].countP (fun r =>
        (resume.skills.map (fun k => String.mk (PyStr.lowerL k.name.toList))).any
          (fun t => DifflibModel.ratioExceeds r.toList t.toList))) = 0 := by
      simp only [List.countP_cons, List.countP_nil, hPs]
      rfl
    by_cases hreq : req.isEmpty = true
    · have hnil : req = [] := List.isEmpty_iff.mp hreq
      subst hnil
      rw [List.nil_append, calculateSkillsMatch_empty,
        calculateSkillsMatch_eval _ [s] (by simp), hc0]
      norm_num
    · rw [calculateSkillsMatch_eval _ (req ++ [s]) happ,
        calculateSkillsMatch_eval _ req hreq, List.countP_append, hc0]
      have hm0 : (0 : ℚ) ≤ ((req.countP (fun r =>
          (resume.skills.map (fun k => String.mk (PyStr.lowerL k.name.toList))).any
            (fun t => DifflibModel.ratioExceeds r.toList t.toList)) : ℕ) : ℚ) := by
        positivity
      have hn : 0 < req.length :=
        List.length_pos.mpr (fun hh => hreq (by simp [hh]))
      have hn1 : (0 : ℚ) < (req.length : ℚ) := by exact_mod_cast hn
      have hn2 : (0 : ℚ) < ((req ++ [s]).length : ℚ) := by
        have : 0 < (req ++ [s]).length := by simp
        exact_mod_cast this
      rw [div_le_div_iff₀ hn2 hn1]
      simp only [List.length_append, List.length_cons, List.length_nil]
      push_cast
      nlinarith [hm0, hn1]

set_option maxRecDepth 20000 in
/-- Witness for C7 (amended): resume {"java"}; appending the exactly-present
"java" to ["go"] does not decrease the score, appending the unmatched
"python" does not increase it. -/
theorem skills_match_append_monotonic_witness :
    (ResumeMatcher.calculateSkillsMatch
        (ResumeMatcher.ResumeData.mk none [⟨"java"⟩] [] []) (["go"] ++ ["java"])
      ≥ ResumeMatcher.calculateSkillsMatch
        (ResumeMatcher.ResumeData.mk none [⟨"java"⟩] [] []) ["go"])
    ∧ (ResumeMatcher.calculateSkillsMatch
        (ResumeMatcher.ResumeData.mk none [⟨"java"⟩] [] []) (["go"] ++ ["python"])
      ≤ ResumeMatcher.calculateSkillsMatch
        (ResumeMatcher.ResumeData.mk none [⟨"java"⟩] [] []) ["go"]) := by
  constructor
  · exact (skills_match_append_monotonic
      (ResumeMatcher.ResumeData.mk none [⟨"java"⟩] [] []) ["go"] "java").1
      (by decide)
  · refine (skills_match_append_monotonic
      (ResumeMatcher.ResumeData.mk none [⟨"java"⟩] [] []) ["go"] "python").2 ?_
    intro t ht
    have ht' : t = String.mk (PyStr.lowerL ("java" : String).toList) := by
      simpa using ht
    subst ht'
    have hx : DifflibModel.ratioExceeds "python".toList
        (String.mk (PyStr.lowerL ("java" : String).toList)).toList = false := by
      decide
    have hiff := DifflibModel.ratioExceeds_iff "python".toList
      (String.mk (PyStr.lowerL ("java" : String).toList)).toList
    rw [hx] at hiff
    simp only [Bool.false_eq_true, false_iff, not_lt] at hiff
    exact hiff

theorem skillsMatch_bounds (r : ResumeMatcher.ResumeData) (req : List String) :
    0 ≤ ResumeMatcher.calculateSkillsMatch r req
    ∧ ResumeMatcher.calculateSkillsMatch r req ≤ 1 := by
  by_cases h : req.isEmpty = true
  · simp only [ResumeMatcher.calculateSkillsMatch, if_pos h]
    norm_num
  · rw [calculateSkillsMatch_eval r req h]
    have hc : req.countP (fun r' =>
        (r.skills.map (fun k => String.mk (PyStr.lowerL k.name.toList))).any
          (fun t => DifflibModel.ratioExceeds r'.toList t.toList))
        ≤ req.length := List.countP_le_length _
    constructor
    · positivity
    · refine div_le_one_of_le₀ ?_ ?_
      · exact_mod_cast hc
      · positivity

/-- Bounds for the `if actual ≥ required then 1.0 else max(0.0,
actual/required)` pattern shared by `_calculate_level_match` and
`_calculate_degree_match`. -/
theorem hierRatio_bounds (a r : Nat) :
    0 ≤ (if a ≥ r then (1 : ℚ) else max 0 ((a : ℚ) / (r : ℚ)))
    ∧ (if a ≥ r then (1 : ℚ) else max 0 ((a : ℚ) / (r : ℚ))) ≤ 1 := by
  by_cases h : a ≥ r
  · rw [if_pos h]
    norm_num
  · rw [if_neg h]
    have hlt : a < r := Nat.lt_of_not_le h
    have hr : (0 : ℚ) < (r : ℚ) := by
      exact_mod_cast Nat.pos_of_ne_zero (by omega)
    constructor
    · exact le_max_left 0 _
    · refine max_le (by norm_num) ?_
      rw [div_le_one hr]
      exact_mod_cast hlt.le

theorem levelMatch_bounds (actual required : String) :
    0 ≤ ResumeMatcher.calculateLevelMatch actual required
    ∧ ResumeMatcher.calculateLevelMatch actual required ≤ 1 := by
  unfold ResumeMatcher.calculateLevelMatch
  exact hierRatio_bounds _ _

theorem degreeMatch_bounds (actual required : String) :
    0 ≤ ResumeMatcher.calculateDegreeMatch actual required
    ∧ ResumeMatcher.calculateDegreeMatch actual required ≤ 1 := by
  unfold ResumeMatcher.calculateDegreeMatch
  exact hierRatio_bounds _ _

/-- Bounds for the base experience score `min(1, t/max(r,1))` /
`max(0, t/r)`. -/
theorem expBase_bounds (t ry : Nat) :
    0 ≤ (if (t : ℚ) ≥ (ry : ℚ) then
        min 1 ((t : ℚ) / ((max ry 1 : Nat) : ℚ))
      else max 0 ((t : ℚ) / (ry : ℚ)))
    ∧ (if (t : ℚ) ≥ (ry : ℚ) then
        min 1 ((t : ℚ) / ((max ry 1 : Nat) : ℚ))
      else max 0 ((t : ℚ) / (ry : ℚ))) ≤ 1 := by
  by_cases h : (t : ℚ) ≥ (ry : ℚ)
  · rw [if_pos h]
    constructor
    · refine le_min (by norm_num) ?_
      positivity
    · exact min_le_left _ _
  · rw [if_neg h]
    have hlt : t < ry := by exact_mod_cast not_le.mp h
    have hr : (0 : ℚ) < (ry : ℚ) := by
      exact_mod_cast Nat.pos_of_ne_zero (by omega)
    constructor
    · exact le_max_left 0 _
    · refine max_le (by norm_num) ?_
      rw [div_le_one hr]
      exact_mod_cast hlt.le

theorem experienceMatch_bounds (r : ResumeMatcher.ResumeData)
    (req : ResumeMatcher.ExperienceReq) :
    0 ≤ ResumeMatcher.calculateExperienceMatch r req
    ∧ ResumeMatcher.calculateExperienceMatch r req ≤ 1 := by
  unfold ResumeMatcher.calculateExperienceMatch
  by_cases h0 : r.experience.isEmpty = true
  · rw [if_pos h0]
    norm_num
  · rw [if_neg h0]
    simp only []
    by_cases h1 : req.isEmptyDict = true
    · rw [if_pos h1]
      norm_num
    · rw [if_neg h1]
      obtain ⟨b0, b1⟩ := expBase_bounds
        (ResumeMatcher.totalExperienceYears r.experience) (req.years.getD 0)
      obtain ⟨l0, l1⟩ := levelMatch_bounds
        (ResumeMatcher.determineExperienceLevel
          (ResumeMatcher.totalExperienceYears r.experience))
        (req.level.getD "any")
      by_cases h2 : req.level.getD "any" ≠ "any"
      · rw [if_pos h2]
        constructor
        · linarith
        · linarith
      · rw [if_neg h2]
        exact ⟨b0, b1⟩

theorem educationMatch_bounds (r : ResumeMatcher.ResumeData)
    (req : ResumeMatcher.EducationReq) :
    0 ≤ ResumeMatcher.calculateEducationMatch r req
    ∧ ResumeMatcher.calculateEducationMatch r req ≤ 1 := by
  unfold ResumeMatcher.calculateEducationMatch
  by_cases h0 : r.education.isEmpty = true
  · rw [if_pos h0]
    norm_num
  · rw [if_neg h0]
    simp only []
    by_cases h1 : req.isEmptyDict = true
    · rw [if_pos h1]
      norm_num
    · rw [if_neg h1]
      obtain ⟨d0, d1⟩ := degreeMatch_bounds
        (ResumeMatcher.findHighestDegree r.education) (req.degree.getD "any")
      by_cases h2 : ResumeMatcher.checkFieldMatch r.education
          (req.field.getD "any") = true
      · rw [if_pos h2]
        constructor
        · linarith
        · linarith
      · rw [if_neg h2]
        constructor
        · nlinarith [d0]
        · nlinarith [d1]

theorem wordOverlap_bounds (t1 t2 : String) :
    0 ≤ ResumeMatcher.calculateWordOverlap t1 t2
    ∧ ResumeMatcher.calculateWordOverlap t1 t2 ≤ 1 := by
  unfold ResumeMatcher.calculateWordOverlap
  simp only []
  set w1 := ((PyStr.pySplit (PyStr.lowerL t1.toList)).map String.mk).toFinset
  set w2 := ((PyStr.pySplit (PyStr.lowerL t2.toList)).map String.mk).toFinset
  by_cases h : w1 = ∅ ∨ w2 = ∅
  · rw [if_pos h]
    norm_num
  · rw [if_neg h]
    have hA : w1.Nonempty :=
      Finset.nonempty_iff_ne_empty.mpr (not_or.mp h).1
    obtain ⟨x, hx⟩ := hA
    have hU : 0 < (w1 ∪ w2).card :=
      Finset.card_pos.mpr ⟨x, Finset.mem_union_left _ hx⟩
    have hUQ : (0 : ℚ) < ((w1 ∪ w2).card : ℚ) := by exact_mod_cast hU
    have hle : (w1 ∩ w2).card ≤ (w1 ∪ w2).card :=
      Finset.card_le_card
        ((Finset.inter_subset_left).trans Finset.subset_union_left)
    constructor
    · positivity
    · rw [div_le_one hUQ]
      exact_mod_cast hle

theorem textSimilarity_bounds (r : ResumeMatcher.ResumeData)
    (j : ResumeMatcher.JobRequirements) :
    0 ≤ ResumeMatcher.calculateTextSimilarity r j
    ∧ ResumeMatcher.calculateTextSimilarity r j ≤ 1 := by
  unfold ResumeMatcher.calculateTextSimilarity
  simp only []
  by_cases h : (ResumeMatcher.prepareResumeText r).isEmpty = true
      ∨ (ResumeMatcher.prepareJobText j).isEmpty = true
  · rw [if_pos h]
    norm_num
  · rw [if_neg h]
    exact wordOverlap_bounds _ _

/-- C1: for every resume/job pair, `overall_score` equals
100 × (0.4·skills + 0.3·experience + 0.2·education + 0.1·text_similarity)
clamped to [0, 100], and each of the four sub-dimension scores lies in
[0, 1] before weighting. -/
theorem calculate_match_score_weighted_clamped (r : ResumeMatcher.ResumeData)
    (j : ResumeMatcher.JobRequirements) :
    (ResumeMatcher.calculateMatchScore r j).overall_score
      = max 0 (min 100 (100 *
        (0.4 * (ResumeMatcher.calculateMatchScore r j).skills_match
          + 0.3 * (ResumeMatcher.calculateMatchScore r j).experience_match
          + 0.2 * (ResumeMatcher.calculateMatchScore r j).education_match
          + 0.1 * (ResumeMatcher.calculateMatchScore r j).text_similarity)))
    ∧ (0 ≤ (ResumeMatcher.calculateMatchScore r j).skills_match
        ∧ (ResumeMatcher.calculateMatchScore r j).skills_match ≤ 1)
    ∧ (0 ≤ (ResumeMatcher.calculateMatchScore r j).experience_match
        ∧ (ResumeMatcher.calculateMatchScore r j).experience_match ≤ 1)
    ∧ (0 ≤ (ResumeMatcher.calculateMatchScore r j).education_match
        ∧ (ResumeMatcher.calculateMatchScore r j).education_match ≤ 1)
    ∧ (0 ≤ (ResumeMatcher.calculateMatchScore r j).text_similarity
        ∧ (ResumeMatcher.calculateMatchScore r j).text_similarity ≤ 1) := by
  have hps : (ResumeMatcher.calculateMatchScore r j).skills_match
      = ResumeMatcher.calculateSkillsMatch r
        (ResumeMatcher.extractSkillsFromRequirements j) := rfl
  have hpe : (ResumeMatcher.calculateMatchScore r j).experience_match
      = ResumeMatcher.calculateExperienceMatch r
        (ResumeMatcher.extractExperienceRequirements j) := rfl
  have hpd : (ResumeMatcher.calculateMatchScore r j).education_match
      = ResumeMatcher.calculateEducationMatch r
        (ResumeMatcher.extractEducationRequirements j) := rfl
  have hpt : (ResumeMatcher.calculateMatchScore r j).text_similarity
      = ResumeMatcher.calculateTextSimilarity r j := rfl
  have hpo : (ResumeMatcher.calculateMatchScore r j).overall_score
      = min 100.0 ((ResumeMatcher.calculateSkillsMatch r
            (ResumeMatcher.extractSkillsFromRequirements j) * 0.4
          + ResumeMatcher.calculateExperienceMatch r
            (ResumeMatcher.extractExperienceRequirements j) * 0.3
          + ResumeMatcher.calculateEducationMatch r
            (ResumeMatcher.extractEducationRequirements j) * 0.2
          + ResumeMatcher.calculateTextSimilarity r j * 0.1) * 100) := rfl
  obtain ⟨s0, s1⟩ := skillsMatch_bounds r
    (ResumeMatcher.extractSkillsFromRequirements j)
  obtain ⟨e0, e1⟩ := experienceMatch_bounds r
    (ResumeMatcher.extractExperienceRequirements j)
  obtain ⟨d0, d1⟩ := educationMatch_bounds r
    (ResumeMatcher.extractEducationRequirements j)
  obtain ⟨t0, t1⟩ := textSimilarity_bounds r j
  refine ⟨?_, ⟨?_, ?_⟩, ⟨?_, ?_⟩, ⟨?_, ?_⟩, ⟨?_, ?_⟩⟩
  · rw [hpo, hps, hpe, hpd, hpt]
    rw [show (ResumeMatcher.calculateSkillsMatch r
          (ResumeMatcher.extractSkillsFromRequirements j) * 0.4
        + ResumeMatcher.calculateExperienceMatch r
          (ResumeMatcher.extractExperienceRequirements j) * 0.3
        + ResumeMatcher.calculateEducationMatch r
          (ResumeMatcher.extractEducationRequirements j) * 0.2
        + ResumeMatcher.calculateTextSimilarity r j * 0.1) * 100
      = 100 * (0.4 * ResumeMatcher.calculateSkillsMatch r
          (ResumeMatcher.extractSkillsFromRequirements j)
        + 0.3 * ResumeMatcher.calculateExperienceMatch r
          (ResumeMatcher.extractExperienceRequirements j)
        + 0.2 * ResumeMatcher.calculateEducationMatch r
          (ResumeMatcher.extractEducationRequirements j)
        + 0.1 * ResumeMatcher.calculateTextSimilarity r j) from by ring]
    have hX0 : (0 : ℚ) ≤ 100 *
        (0.4 * ResumeMatcher.calculateSkillsMatch r
          (ResumeMatcher.extractSkillsFromRequirements j)
        + 0.3 * ResumeMatcher.calculateExperienceMatch r
          (ResumeMatcher.extractExperienceRequirements j)
        + 0.2 * ResumeMatcher.calculateEducationMatch r
          (ResumeMatcher.extractEducationRequirements j)
        + 0.1 * ResumeMatcher.calculateTextSimilarity r j) := by
      nlinarith [s0, e0, d0, t0]
    have hmin0 : (0 : ℚ) ≤ min 100 (100 *
        (0.4 * ResumeMatcher.calculateSkillsMatch r
          (ResumeMatcher.extractSkillsFromRequirements j)
        + 0.3 * ResumeMatcher.calculateExperienceMatch r
          (ResumeMatcher.extractExperienceRequirements j)
        + 0.2 * ResumeMatcher.calculateEducationMatch r
          (ResumeMatcher.extractEducationRequirements j)
        + 0.1 * ResumeMatcher.calculateTextSimilarity r j)) :=
      le_min (by norm_num) hX0
    rw [show (100.0 : ℚ) = 100 from by norm_num]
    exact (max_eq_right hmin0).symm
  · rw [hps]; exact s0
  · rw [hps]; exact s1
  · rw [hpe]; exact e0
  · rw [hpe]; exact e1
  · rw [hpd]; exact d0
  · rw [hpd]; exact d1
  · rw [hpt]; exact t0
  · rw [hpt]; exact t1
